import Mathlib

/-
Shallow embedding of the ReadingBuddy session controller (src/App.tsx and
src/types.ts).

Modelling conventions:
- Each React `useState` field of the `App` component becomes a field of the
  `Session` record.  The recorder's `isRecording` flag and the audio blob
  returned by `stopRecording`, as well as the two service calls
  (`transcribeAudio`, `generateComprehensionQuestions`), are external
  collaborators; they enter each handler as explicit parameters (the service
  calls as oracle functions), mirroring how the component reads them.
- Each event handler is modelled as the net effect of one run-to-completion
  invocation on the session fields.  Transient states that are overwritten
  before the handler returns (REQUESTING_PERMISSION inside the start
  handlers, PROCESSING_STORY / PROCESSING_ANSWER inside the stop handlers)
  are collapsed into the final state, matching the event-atomic execution
  model: no other transition interleaves with a handler.
- The 60-second auto-stop timer has no effect on the session fields other
  than invoking handleStopStoryRecording, so timer bookkeeping
  (cleanupTimeout, recordingTimeoutRef) is not represented; a timer firing
  is just another stopStory step from RECORDING_STORY.
- JS numbers holding list indices are modelled as Nat.  The one comparison
  `currentQuestionIndex < qnaPairs.length - 1` agrees with truncated Nat
  subtraction: for length 0 the JS comparison is `i < -1`, false, and the
  Nat comparison is `i < 0`, also false.
- The in-place assignment `newPairs[currentQuestionIndex].answer = answerText`
  is modelled by updateAnswer, which leaves the list unchanged when the index
  is out of range; reachable sessions in RECORDING_ANSWER always have the
  index in range (see the invariant below), so the models agree on every
  reachable input.
-/

namespace ReadingBuddy

/-- The AppState enum of src/types.ts. -/
inductive AppState where
  | IDLE
  | REQUESTING_PERMISSION
  | RECORDING_STORY
  | PROCESSING_STORY
  | PRESENTING_QUESTION
  | RECORDING_ANSWER
  | PROCESSING_ANSWER
  | SUMMARY
  | ERROR
deriving DecidableEq, Repr

/-- The QnAPair interface of src/types.ts. -/
structure QnAPair where
  question : String
  answer : String
deriving DecidableEq, Repr

/-- The component's useState fields, gathered into one record. -/
structure Session where
  appState : AppState
  error : Option String
  storyText : String
  qnaPairs : List QnAPair
  currentQuestionIndex : Nat
  copied : Bool
deriving DecidableEq, Repr

/-- An opaque stand-in for the audio Blob produced by the recorder. -/
structure AudioBlob where
  id : Nat
deriving DecidableEq, Repr

/-- A single apostrophe character, for building the UI messages. -/
def apos : String := Char.toString (Char.ofNat 39)

/-- The error message of the transcript-too-short branch (App.tsx line 101). -/
def tooShortMessage : String :=
  "The recording was too short or unclear. Let" ++ apos ++ "s try reading again!"

/-- The error message of the zero-questions branch (App.tsx line 111). -/
def noQuestionsMessage : String :=
  "I couldn" ++ apos ++ "t think of any questions for that story. Let" ++ apos
    ++ "s try another one!"

/-- The transient message set when sharing is cancelled (App.tsx line 69). -/
def shareCancelledMessage : String := "Sharing was cancelled."

/-- The initial values of the component's useState hooks. -/
def initSession : Session :=
  { appState := AppState.IDLE
    error := none
    storyText := ""
    qnaPairs := []
    currentQuestionIndex := 0
    copied := false }

/-- handleReset (App.tsx lines 25-33): clear every session field. -/
def handleReset (_s : Session) : Session :=
  { appState := AppState.IDLE
    error := none
    storyText := ""
    qnaPairs := []
    currentQuestionIndex := 0
    copied := false }

/-- getShareableText (App.tsx lines 35-45), with the forEach loop rendered as
a foldl over the index-numbered pairs.  The JS test `pair.answer ||` treats
exactly the empty string as absent. -/
def getShareableText (storyText : String) (qnaPairs : List QnAPair) : String :=
  let t0 := "Reading Practice Session!\n\n"
  let t1 := t0 ++ "--- STORY ---\n"
  let t2 := t1 ++ storyText ++ "\n\n"
  let t3 := t2 ++ "--- QUESTIONS & ANSWERS ---\n\n"
  qnaPairs.enum.foldl
    (fun text ip =>
      text ++ "Question " ++ toString (ip.1 + 1) ++ ": " ++ ip.2.question
        ++ "\n" ++ "Answer: "
        ++ (if ip.2.answer = "" then "No answer recorded." else ip.2.answer)
        ++ "\n\n")
    t3

/-- handleStartStoryRecording (App.tsx lines 74-87).  The parameter is the
outcome of `await startRecording()`: ok, or an exception message.  Net
effect: error is cleared, then the state becomes RECORDING_STORY on success
or ERROR with the exception message on failure. -/
def handleStartStoryRecording (s : Session) (startResult : Except String Unit) :
    Session :=
  match startResult with
  | Except.ok _ => { s with error := none, appState := AppState.RECORDING_STORY }
  | Except.error msg => { s with error := some msg, appState := AppState.ERROR }

/-- handleStartAnswerRecording (App.tsx lines 123-133): identical to the
story variant except for the success state. -/
def handleStartAnswerRecording (s : Session) (startResult : Except String Unit) :
    Session :=
  match startResult with
  | Except.ok _ => { s with error := none, appState := AppState.RECORDING_ANSWER }
  | Except.error msg => { s with error := some msg, appState := AppState.ERROR }

/-- The JS `transcription.trim()` call: strip leading and trailing
whitespace.  Defined by structural recursion over the character list so that
concrete runs evaluate; Char.isWhitespace covers the space, tab, carriage
return and line feed characters that matter here. -/
def jsTrim (s : String) : String :=
  { data := ((s.data.dropWhile Char.isWhitespace).reverse.dropWhile
      Char.isWhitespace).reverse }

/-- handleStopStoryRecording (App.tsx lines 89-121).  Parameters beyond the
session: the recorder's isRecording flag, the blob returned by
stopRecording, and the two service oracles.  Note that storyText is assigned
the transcription (line 98) before the length-10 check (line 100). -/
def handleStopStoryRecording (s : Session) (isRecording : Bool)
    (blob : Option AudioBlob)
    (transcribeAudio : AudioBlob → Except String String)
    (generateComprehensionQuestions : String → Except String (List String)) :
    Session :=
  if isRecording then
    match blob with
    | none => handleReset s
    | some b =>
      match transcribeAudio b with
      | Except.error msg =>
          { s with error := some msg, appState := AppState.ERROR }
      | Except.ok transcription =>
        if transcription = "" ∨ (jsTrim transcription).length < 10 then
          { s with storyText := transcription,
                   error := some tooShortMessage,
                   appState := AppState.ERROR }
        else
          match generateComprehensionQuestions transcription with
          | Except.error msg =>
              { s with storyText := transcription,
                       error := some msg,
                       appState := AppState.ERROR }
          | Except.ok questions =>
            if questions.length > 0 then
              { s with storyText := transcription,
                       qnaPairs := questions.map
                         (fun q => { question := q, answer := "" }),
                       appState := AppState.PRESENTING_QUESTION }
            else
              { s with storyText := transcription,
                       error := some noQuestionsMessage,
                       appState := AppState.ERROR }
  else s

/-- The in-place update `newPairs[i].answer = answerText` performed on a
shallow copy of qnaPairs (App.tsx lines 143-147). -/
def updateAnswer : List QnAPair → Nat → String → List QnAPair
  | [], _, _ => []
  | p :: ps, 0, a => { p with answer := a } :: ps
  | p :: ps, i + 1, a => p :: updateAnswer ps i a

/-- handleStopAnswerRecording (App.tsx lines 135-160).  When the blob is
absent nothing at all happens (the `if (audioBlob)` block has no else
branch).  On a transcription the answer is written at the current index and
the session either advances to the next question or moves to SUMMARY. -/
def handleStopAnswerRecording (s : Session) (isRecording : Bool)
    (blob : Option AudioBlob)
    (transcribeAudio : AudioBlob → Except String String) : Session :=
  if isRecording then
    match blob with
    | none => s
    | some b =>
      match transcribeAudio b with
      | Except.error msg =>
          { s with error := some msg, appState := AppState.ERROR }
      | Except.ok answerText =>
        let newPairs := updateAnswer s.qnaPairs s.currentQuestionIndex answerText
        if s.currentQuestionIndex < s.qnaPairs.length - 1 then
          { s with qnaPairs := newPairs,
                   currentQuestionIndex := s.currentQuestionIndex + 1,
                   appState := AppState.PRESENTING_QUESTION }
        else
          { s with qnaPairs := newPairs, appState := AppState.SUMMARY }
  else s

/-- One user- or timer-driven transition of the controller.  An event is only
available from the states whose rendered view exposes it (renderContent,
App.tsx lines 168-289): start story from IDLE, stop story from
RECORDING_STORY (button or 60-second timer), start answer from
PRESENTING_QUESTION, stop answer from RECORDING_ANSWER, reset from SUMMARY
or ERROR, copy and share from SUMMARY.  The delayed copied/error clears of
the copy and share handlers may fire in any later state. -/
inductive Step : Session → Session → Prop where
  | startStory (s : Session) (r : Except String Unit) :
      s.appState = AppState.IDLE → Step s (handleStartStoryRecording s r)
  | stopStory (s : Session) (isRecording : Bool) (blob : Option AudioBlob)
      (tr : AudioBlob → Except String String)
      (gen : String → Except String (List String)) :
      s.appState = AppState.RECORDING_STORY →
      Step s (handleStopStoryRecording s isRecording blob tr gen)
  | startAnswer (s : Session) (r : Except String Unit) :
      s.appState = AppState.PRESENTING_QUESTION →
      Step s (handleStartAnswerRecording s r)
  | stopAnswer (s : Session) (isRecording : Bool) (blob : Option AudioBlob)
      (tr : AudioBlob → Except String String) :
      s.appState = AppState.RECORDING_ANSWER →
      Step s (handleStopAnswerRecording s isRecording blob tr)
  | resetFromSummary (s : Session) :
      s.appState = AppState.SUMMARY → Step s (handleReset s)
  | resetFromError (s : Session) :
      s.appState = AppState.ERROR → Step s (handleReset s)
  | copyClick (s : Session) :
      s.appState = AppState.SUMMARY → Step s { s with copied := true }
  | shareCancel (s : Session) :
      s.appState = AppState.SUMMARY →
      Step s { s with error := some shareCancelledMessage }
  | copyClear (s : Session) : Step s { s with copied := false }
  | shareClear (s : Session) : Step s { s with error := none }

/-- Sessions reachable from the initial render by controller transitions. -/
inductive Reachable : Session → Prop where
  | init : Reachable initSession
  | step {s t : Session} : Reachable s → Step s t → Reachable t

/-- The inductive invariant of the controller: the index is 0 while qnaPairs
is empty and in range once it is non-empty; question-presenting and
answer-recording states require a non-empty question list; and a session in
IDLE or RECORDING_STORY is still blank. -/
def Inv (s : Session) : Prop :=
  (s.qnaPairs = [] → s.currentQuestionIndex = 0) ∧
  (s.qnaPairs ≠ [] → s.currentQuestionIndex < s.qnaPairs.length) ∧
  ((s.appState = AppState.PRESENTING_QUESTION ∨
      s.appState = AppState.RECORDING_ANSWER) → s.qnaPairs ≠ []) ∧
  ((s.appState = AppState.IDLE ∨ s.appState = AppState.RECORDING_STORY) →
      s.qnaPairs = [] ∧ s.currentQuestionIndex = 0 ∧ s.storyText = "")

theorem inv_init : Inv initSession := by
  refine ⟨fun _ => rfl, fun h => absurd rfl h, fun h => ?_, fun _ => ⟨rfl, rfl, rfl⟩⟩
  rcases h with h | h <;> simp [initSession] at h

theorem inv_handleReset (s : Session) : Inv (handleReset s) := by
  refine ⟨fun _ => rfl, fun h => absurd rfl h, fun h => ?_, fun _ => ⟨rfl, rfl, rfl⟩⟩
  rcases h with h | h <;> simp [handleReset] at h

theorem updateAnswer_length (ps : List QnAPair) (i : Nat) (a : String) :
    (updateAnswer ps i a).length = ps.length := by
  induction ps generalizing i with
  | nil => rfl
  | cons p ps ih =>
    cases i with
    | zero => rfl
    | succ i => simpa [updateAnswer] using ih i

theorem stopStory_notRecording (s : Session) (blob : Option AudioBlob)
    (tr : AudioBlob → Except String String)
    (gen : String → Except String (List String)) :
    handleStopStoryRecording s false blob tr gen = s := rfl

theorem stopStory_noBlob (s : Session)
    (tr : AudioBlob → Except String String)
    (gen : String → Except String (List String)) :
    handleStopStoryRecording s true none tr gen = handleReset s := rfl

theorem stopStory_transcribeFailed (s : Session) (b : AudioBlob)
    (tr : AudioBlob → Except String String)
    (gen : String → Except String (List String)) (msg : String)
    (htr : tr b = Except.error msg) :
    handleStopStoryRecording s true (some b) tr gen =
      { s with error := some msg, appState := AppState.ERROR } := by
  simp only [handleStopStoryRecording, htr, if_true]

theorem stopStory_shortTranscript (s : Session) (b : AudioBlob)
    (tr : AudioBlob → Except String String)
    (gen : String → Except String (List String)) (t : String)
    (htr : tr b = Except.ok t) (hshort : t = "" ∨ (jsTrim t).length < 10) :
    handleStopStoryRecording s true (some b) tr gen =
      { s with storyText := t, error := some tooShortMessage,
               appState := AppState.ERROR } := by
  simp only [handleStopStoryRecording, htr, if_true, if_pos hshort]

theorem stopStory_genFailed (s : Session) (b : AudioBlob)
    (tr : AudioBlob → Except String String)
    (gen : String → Except String (List String)) (t msg : String)
    (htr : tr b = Except.ok t) (hlong : ¬(t = "" ∨ (jsTrim t).length < 10))
    (hgen : gen t = Except.error msg) :
    handleStopStoryRecording s true (some b) tr gen =
      { s with storyText := t, error := some msg,
               appState := AppState.ERROR } := by
  simp only [handleStopStoryRecording, htr, if_true, if_neg hlong, hgen]

theorem stopStory_questions (s : Session) (b : AudioBlob)
    (tr : AudioBlob → Except String String)
    (gen : String → Except String (List String)) (t : String)
    (qs : List String)
    (htr : tr b = Except.ok t) (hlong : ¬(t = "" ∨ (jsTrim t).length < 10))
    (hgen : gen t = Except.ok qs) (hqs : qs.length > 0) :
    handleStopStoryRecording s true (some b) tr gen =
      { s with storyText := t,
               qnaPairs := qs.map (fun q => { question := q, answer := "" }),
               appState := AppState.PRESENTING_QUESTION } := by
  simp only [handleStopStoryRecording, htr, if_true, if_neg hlong, hgen,
    if_pos hqs]

theorem stopStory_noQuestions (s : Session) (b : AudioBlob)
    (tr : AudioBlob → Except String String)
    (gen : String → Except String (List String)) (t : String)
    (htr : tr b = Except.ok t) (hlong : ¬(t = "" ∨ (jsTrim t).length < 10))
    (hgen : gen t = Except.ok []) :
    handleStopStoryRecording s true (some b) tr gen =
      { s with storyText := t, error := some noQuestionsMessage,
               appState := AppState.ERROR } := by
  simp only [handleStopStoryRecording, htr, if_true, hgen]
  rw [if_neg hlong, if_neg (by simp)]

theorem stopAnswer_notRecording (s : Session) (blob : Option AudioBlob)
    (tr : AudioBlob → Except String String) :
    handleStopAnswerRecording s false blob tr = s := rfl

theorem stopAnswer_noBlob (s : Session)
    (tr : AudioBlob → Except String String) :
    handleStopAnswerRecording s true none tr = s := rfl

theorem stopAnswer_transcribeFailed (s : Session) (b : AudioBlob)
    (tr : AudioBlob → Except String String) (msg : String)
    (htr : tr b = Except.error msg) :
    handleStopAnswerRecording s true (some b) tr =
      { s with error := some msg, appState := AppState.ERROR } := by
  simp only [handleStopAnswerRecording, htr, if_true]

theorem stopAnswer_advance (s : Session) (b : AudioBlob)
    (tr : AudioBlob → Except String String) (a : String)
    (htr : tr b = Except.ok a)
    (hlt : s.currentQuestionIndex < s.qnaPairs.length - 1) :
    handleStopAnswerRecording s true (some b) tr =
      { s with qnaPairs := updateAnswer s.qnaPairs s.currentQuestionIndex a,
               currentQuestionIndex := s.currentQuestionIndex + 1,
               appState := AppState.PRESENTING_QUESTION } := by
  simp only [handleStopAnswerRecording, htr, if_true]
  rw [if_pos hlt]

theorem stopAnswer_last (s : Session) (b : AudioBlob)
    (tr : AudioBlob → Except String String) (a : String)
    (htr : tr b = Except.ok a)
    (hge : ¬ s.currentQuestionIndex < s.qnaPairs.length - 1) :
    handleStopAnswerRecording s true (some b) tr =
      { s with qnaPairs := updateAnswer s.qnaPairs s.currentQuestionIndex a,
               appState := AppState.SUMMARY } := by
  simp only [handleStopAnswerRecording, htr, if_true]
  rw [if_neg hge]


theorem inv_startStory (s : Session) (r : Except String Unit)
    (hs : s.appState = AppState.IDLE) (hI : Inv s) :
    Inv (handleStartStoryRecording s r) := by
  obtain ⟨h1, h2, h3, h4⟩ := hI
  obtain ⟨hp, hi, ht⟩ := h4 (Or.inl hs)
  cases r with
  | ok u =>
    exact ⟨fun _ => hi, fun h => absurd hp h,
      fun h => by simp [handleStartStoryRecording] at h,
      fun _ => ⟨hp, hi, ht⟩⟩
  | error msg =>
    exact ⟨fun _ => hi, fun h => absurd hp h,
      fun h => by simp [handleStartStoryRecording] at h,
      fun h => by simp [handleStartStoryRecording] at h⟩

theorem inv_startAnswer (s : Session) (r : Except String Unit)
    (hs : s.appState = AppState.PRESENTING_QUESTION) (hI : Inv s) :
    Inv (handleStartAnswerRecording s r) := by
  obtain ⟨h1, h2, h3, h4⟩ := hI
  cases r with
  | ok u =>
    exact ⟨h1, h2, fun _ => h3 (Or.inl hs),
      fun h => by simp [handleStartAnswerRecording] at h⟩
  | error msg =>
    exact ⟨h1, h2,
      fun h => by simp [handleStartAnswerRecording] at h,
      fun h => by simp [handleStartAnswerRecording] at h⟩

theorem inv_stopStory (s : Session) (isRecording : Bool)
    (blob : Option AudioBlob) (tr : AudioBlob → Except String String)
    (gen : String → Except String (List String))
    (hs : s.appState = AppState.RECORDING_STORY) (hI : Inv s) :
    Inv (handleStopStoryRecording s isRecording blob tr gen) := by
  obtain ⟨h1, h2, h3, h4⟩ := hI
  obtain ⟨hp, hi, ht⟩ := h4 (Or.inr hs)
  cases isRecording with
  | false => exact ⟨h1, h2, h3, h4⟩
  | true =>
    cases blob with
    | none => exact inv_handleReset s
    | some b =>
      cases htr : tr b with
      | error msg =>
        rw [stopStory_transcribeFailed s b tr gen msg htr]
        exact ⟨fun _ => hi, fun h => absurd hp h,
          fun h => by simp at h, fun h => by simp at h⟩
      | ok t =>
        by_cases hshort : t = "" ∨ (jsTrim t).length < 10
        · rw [stopStory_shortTranscript s b tr gen t htr hshort]
          exact ⟨fun _ => hi, fun h => absurd hp h,
            fun h => by simp at h, fun h => by simp at h⟩
        · cases hgen : gen t with
          | error msg =>
            rw [stopStory_genFailed s b tr gen t msg htr hshort hgen]
            exact ⟨fun _ => hi, fun h => absurd hp h,
              fun h => by simp at h, fun h => by simp at h⟩
          | ok qs =>
            cases qs with
            | nil =>
              rw [stopStory_noQuestions s b tr gen t htr hshort hgen]
              exact ⟨fun _ => hi, fun h => absurd hp h,
                fun h => by simp at h, fun h => by simp at h⟩
            | cons q qs =>
              rw [stopStory_questions s b tr gen t (q :: qs) htr hshort hgen
                (by simp)]
              refine ⟨fun _ => hi, fun _ => ?_, fun _ => by simp,
                fun h => by simp at h⟩
              simp [hi]

theorem inv_stopAnswer (s : Session) (isRecording : Bool)
    (blob : Option AudioBlob) (tr : AudioBlob → Except String String)
    (hs : s.appState = AppState.RECORDING_ANSWER) (hI : Inv s) :
    Inv (handleStopAnswerRecording s isRecording blob tr) := by
  obtain ⟨h1, h2, h3, h4⟩ := hI
  have hne : s.qnaPairs ≠ [] := h3 (Or.inr hs)
  have hlt : s.currentQuestionIndex < s.qnaPairs.length := h2 hne
  cases isRecording with
  | false => exact ⟨h1, h2, h3, h4⟩
  | true =>
    cases blob with
    | none => exact ⟨h1, h2, h3, h4⟩
    | some b =>
      cases htr : tr b with
      | error msg =>
        rw [stopAnswer_transcribeFailed s b tr msg htr]
        exact ⟨h1, h2, fun h => by simp at h, fun h => by simp at h⟩
      | ok a =>
        have hlen : (updateAnswer s.qnaPairs s.currentQuestionIndex a).length
            = s.qnaPairs.length := updateAnswer_length _ _ _
        have hne2 : updateAnswer s.qnaPairs s.currentQuestionIndex a ≠ [] := by
          intro h
          have := congrArg List.length h
          rw [hlen] at this
          exact hne (List.length_eq_zero.mp this)
        by_cases hadv : s.currentQuestionIndex < s.qnaPairs.length - 1
        · rw [stopAnswer_advance s b tr a htr hadv]
          refine ⟨fun h => absurd h hne2, fun _ => ?_, fun _ => hne2,
            fun h => by simp at h⟩
          show s.currentQuestionIndex + 1
            < (updateAnswer s.qnaPairs s.currentQuestionIndex a).length
          rw [hlen]
          omega
        · rw [stopAnswer_last s b tr a htr hadv]
          refine ⟨fun h => absurd h hne2, fun _ => ?_,
            fun h => by simp at h, fun h => by simp at h⟩
          show s.currentQuestionIndex
            < (updateAnswer s.qnaPairs s.currentQuestionIndex a).length
          rw [hlen]
          exact hlt

theorem inv_step {s t : Session} (hI : Inv s) (hstep : Step s t) : Inv t := by
  cases hstep with
  | startStory r hs => exact inv_startStory _ r hs hI
  | stopStory isRecording blob tr gen hs =>
      exact inv_stopStory _ isRecording blob tr gen hs hI
  | startAnswer r hs => exact inv_startAnswer _ r hs hI
  | stopAnswer isRecording blob tr hs =>
      exact inv_stopAnswer _ isRecording blob tr hs hI
  | resetFromSummary hs => exact inv_handleReset _
  | resetFromError hs => exact inv_handleReset _
  | copyClick hs =>
      obtain ⟨h1, h2, h3, h4⟩ := hI
      exact ⟨h1, h2, h3, h4⟩
  | shareCancel hs =>
      obtain ⟨h1, h2, h3, h4⟩ := hI
      exact ⟨h1, h2, h3, h4⟩
  | copyClear =>
      obtain ⟨h1, h2, h3, h4⟩ := hI
      exact ⟨h1, h2, h3, h4⟩
  | shareClear =>
      obtain ⟨h1, h2, h3, h4⟩ := hI
      exact ⟨h1, h2, h3, h4⟩

theorem reachable_inv {s : Session} (h : Reachable s) : Inv s := by
  induction h with
  | init => exact inv_init
  | step hr hstep ih => exact inv_step ih hstep


/-- Modelled from the spec: the copy/share text format of section 6, written
as the header literal, the story section, and a question-and-answer section
generated by a direct recursion numbering questions from 1, with the
"No answer recorded." substitution for an empty stored answer. -/
def specQnaLines : Nat → List QnAPair → String
  | _, [] => ""
  | k, p :: ps =>
      "Question " ++ toString k ++ ": " ++ p.question ++ "\n" ++ "Answer: "
        ++ (if p.answer = "" then "No answer recorded." else p.answer)
        ++ "\n\n" ++ specQnaLines (k + 1) ps

/-- Modelled from the spec: the complete copy/share text of section 6. -/
def specShareText (storyText : String) (qnaPairs : List QnAPair) : String :=
  "Reading Practice Session!\n\n--- STORY ---\n" ++ storyText
    ++ "\n\n--- QUESTIONS & ANSWERS ---\n\n" ++ specQnaLines 1 qnaPairs

theorem enumFrom_foldl_share (ps : List QnAPair) (k : Nat) (acc : String) :
    (List.enumFrom k ps).foldl
      (fun text ip =>
        text ++ "Question " ++ toString (ip.1 + 1) ++ ": " ++ ip.2.question
          ++ "\n" ++ "Answer: "
          ++ (if ip.2.answer = "" then "No answer recorded." else ip.2.answer)
          ++ "\n\n")
      acc = acc ++ specQnaLines (k + 1) ps := by
  induction ps generalizing k acc with
  | nil => simp [specQnaLines, String.append_empty]
  | cons p ps ih =>
    simp only [List.enumFrom, List.foldl, specQnaLines]
    rw [ih]
    simp [String.append_assoc]


/-- A concrete audio blob for concrete runs. -/
def sampleBlob : AudioBlob := { id := 0 }

/-- The story transcript of the scenario in spec section 8. -/
def sampleStory : String :=
  "The cat sat on the mat and looked at the bird outside the window."

/-- The generated questions of the scenario in spec section 8. -/
def sampleQuestions : List String :=
  ["Where did the cat sit?", "What did the cat look at?"]

/-- A transcription service that always returns the given text. -/
def constTranscribe (t : String) : AudioBlob → Except String String :=
  fun _ => Except.ok t

/-- A question service that always returns the given questions. -/
def constQuestions (qs : List String) : String → Except String (List String) :=
  fun _ => Except.ok qs

/-- The session after starting a story recording from the initial render. -/
def recordingStorySession : Session :=
  handleStartStoryRecording initSession (Except.ok ())

/-- The session of the spec section 8 scenario: story recorded and
transcribed, two questions generated, first question presented. -/
def presentingSession : Session :=
  handleStopStoryRecording recordingStorySession true (some sampleBlob)
    (constTranscribe sampleStory) (constQuestions sampleQuestions)

/-- The scenario session while the first answer is being recorded. -/
def recordingAnswerSession : Session :=
  handleStartAnswerRecording presentingSession (Except.ok ())

theorem reachable_recordingStory : Reachable recordingStorySession :=
  Reachable.step Reachable.init (Step.startStory initSession (Except.ok ()) rfl)

theorem reachable_presenting : Reachable presentingSession :=
  Reachable.step reachable_recordingStory
    (Step.stopStory recordingStorySession true (some sampleBlob)
      (constTranscribe sampleStory) (constQuestions sampleQuestions)
      (by decide))

theorem reachable_recordingAnswer : Reachable recordingAnswerSession :=
  Reachable.step reachable_presenting
    (Step.startAnswer presentingSession (Except.ok ()) (by decide))

/-- Claim C7: calling a stop-recording operation (story or answer) while the
recorder reports not-recording leaves the entire session record unchanged,
so in particular the state tag, storyText, qnaPairs, currentQuestionIndex
and error are all unchanged, and neither service oracle is consulted. -/
theorem C7_stop_noop_when_not_recording (s : Session) (blob : Option AudioBlob)
    (tr : AudioBlob → Except String String)
    (gen : String → Except String (List String)) :
    handleStopStoryRecording s false blob tr gen = s ∧
    handleStopAnswerRecording s false blob tr = s :=
  ⟨stopStory_notRecording s blob tr gen, stopAnswer_notRecording s blob tr⟩

/-- Claim C8: after the reset operation, applied to any session state,
storyText is empty, qnaPairs is empty, currentQuestionIndex is 0, error is
cleared, and the state is Idle. -/
theorem C8_reset_clears_session (s : Session) :
    (handleReset s).storyText = "" ∧ (handleReset s).qnaPairs = [] ∧
    (handleReset s).currentQuestionIndex = 0 ∧ (handleReset s).error = none ∧
    (handleReset s).appState = AppState.IDLE :=
  ⟨rfl, rfl, rfl, rfl, rfl⟩

/-- Claim C9: for every storyText and qnaPairs, the derived copy/share text
equals the spec format of section 6: the header, a STORY section holding
storyText, and a QUESTIONS & ANSWERS section listing each pair in order as
Question k / Answer lines, substituting "No answer recorded." exactly when
the stored answer is the empty string. -/
theorem C9_shareable_text_matches_spec (storyText : String)
    (qnaPairs : List QnAPair) :
    getShareableText storyText qnaPairs = specShareText storyText qnaPairs := by
  unfold getShareableText specShareText
  rw [show qnaPairs.enum = List.enumFrom 0 qnaPairs from rfl]
  rw [enumFrom_foldl_share]
  rw [show ("Reading Practice Session!\n\n--- STORY ---\n" : String)
      = "Reading Practice Session!\n\n" ++ "--- STORY ---\n" from rfl]
  rw [show ("\n\n--- QUESTIONS & ANSWERS ---\n\n" : String)
      = "\n\n" ++ "--- QUESTIONS & ANSWERS ---\n\n" from rfl]
  simp [String.append_assoc]


/-- Claim C1: in every reachable session state, currentQuestionIndex lies
within [0, len(qnaPairs)) whenever qnaPairs is non-empty and equals 0 while
qnaPairs is still empty; since Reachable is closed under every controller
operation (Step), no operation violates the bound. -/
theorem C1_index_in_bounds (s : Session) (h : Reachable s) :
    (s.qnaPairs ≠ [] → s.currentQuestionIndex < s.qnaPairs.length) ∧
    (s.qnaPairs = [] → s.currentQuestionIndex = 0) := by
  obtain ⟨h1, h2, h3, h4⟩ := reachable_inv h
  exact ⟨h2, h1⟩

theorem C1_index_in_bounds_witness :
    Reachable presentingSession ∧
    ((presentingSession.qnaPairs ≠ [] →
        presentingSession.currentQuestionIndex
          < presentingSession.qnaPairs.length) ∧
      (presentingSession.qnaPairs = [] →
        presentingSession.currentQuestionIndex = 0)) :=
  ⟨reachable_presenting, C1_index_in_bounds presentingSession reachable_presenting⟩

/-- Claim C2: when an answer to question i is successfully transcribed and
i is not the last index of qnaPairs, the state becomes PresentingQuestion
with index i + 1, and when i is the last index the state becomes Summary
with the index unchanged; moreover over every controller transition the
index never decreases, except through the reset that returns it to 0. -/
theorem C2_monotonic_advance :
    (∀ (s : Session) (b : AudioBlob) (tr : AudioBlob → Except String String)
        (a : String), tr b = Except.ok a →
      s.currentQuestionIndex < s.qnaPairs.length →
      (s.currentQuestionIndex + 1 < s.qnaPairs.length →
        (handleStopAnswerRecording s true (some b) tr).appState
            = AppState.PRESENTING_QUESTION ∧
        (handleStopAnswerRecording s true (some b) tr).currentQuestionIndex
            = s.currentQuestionIndex + 1) ∧
      (s.currentQuestionIndex + 1 = s.qnaPairs.length →
        (handleStopAnswerRecording s true (some b) tr).appState
            = AppState.SUMMARY ∧
        (handleStopAnswerRecording s true (some b) tr).currentQuestionIndex
            = s.currentQuestionIndex)) ∧
    (∀ s t : Session, Step s t →
      s.currentQuestionIndex ≤ t.currentQuestionIndex ∨
      (t = handleReset s ∧ t.currentQuestionIndex = 0)) := by
  constructor
  · intro s b tr a htr hlt
    constructor
    · intro hnotlast
      have hadv : s.currentQuestionIndex < s.qnaPairs.length - 1 := by omega
      rw [stopAnswer_advance s b tr a htr hadv]
      exact ⟨rfl, rfl⟩
    · intro hlast
      have hge : ¬ s.currentQuestionIndex < s.qnaPairs.length - 1 := by omega
      rw [stopAnswer_last s b tr a htr hge]
      exact ⟨rfl, rfl⟩
  · intro s t hstep
    cases hstep with
    | startStory r hs => cases r <;> exact Or.inl (le_refl _)
    | stopStory isRecording blob tr gen hs =>
      cases isRecording with
      | false => exact Or.inl (le_refl _)
      | true =>
        cases blob with
        | none => exact Or.inr ⟨rfl, rfl⟩
        | some b =>
          cases htr : tr b with
          | error msg =>
            rw [stopStory_transcribeFailed s b tr gen msg htr]
            exact Or.inl (le_refl _)
          | ok t =>
            by_cases hshort : t = "" ∨ (jsTrim t).length < 10
            · rw [stopStory_shortTranscript s b tr gen t htr hshort]
              exact Or.inl (le_refl _)
            · cases hgen : gen t with
              | error msg =>
                rw [stopStory_genFailed s b tr gen t msg htr hshort hgen]
                exact Or.inl (le_refl _)
              | ok qs =>
                cases qs with
                | nil =>
                  rw [stopStory_noQuestions s b tr gen t htr hshort hgen]
                  exact Or.inl (le_refl _)
                | cons q qs =>
                  rw [stopStory_questions s b tr gen t (q :: qs) htr hshort hgen
                    (by simp)]
                  exact Or.inl (le_refl _)
    | startAnswer r hs => cases r <;> exact Or.inl (le_refl _)
    | stopAnswer isRecording blob tr hs =>
      cases isRecording with
      | false => exact Or.inl (le_refl _)
      | true =>
        cases blob with
        | none => exact Or.inl (le_refl _)
        | some b =>
          cases htr : tr b with
          | error msg =>
            rw [stopAnswer_transcribeFailed s b tr msg htr]
            exact Or.inl (le_refl _)
          | ok a =>
            by_cases hadv : s.currentQuestionIndex < s.qnaPairs.length - 1
            · rw [stopAnswer_advance s b tr a htr hadv]
              exact Or.inl (Nat.le_succ _)
            · rw [stopAnswer_last s b tr a htr hadv]
              exact Or.inl (le_refl _)
    | resetFromSummary hs => exact Or.inr ⟨rfl, rfl⟩
    | resetFromError hs => exact Or.inr ⟨rfl, rfl⟩
    | copyClick hs => exact Or.inl (le_refl _)
    | shareCancel hs => exact Or.inl (le_refl _)
    | copyClear => exact Or.inl (le_refl _)
    | shareClear => exact Or.inl (le_refl _)

theorem C2_monotonic_advance_witness :
    (handleStopAnswerRecording presentingSession true (some sampleBlob)
        (constTranscribe "On the mat.")).appState
      = AppState.PRESENTING_QUESTION ∧
    (handleStopAnswerRecording presentingSession true (some sampleBlob)
        (constTranscribe "On the mat.")).currentQuestionIndex
      = presentingSession.currentQuestionIndex + 1 :=
  (C2_monotonic_advance.1 presentingSession sampleBlob
      (constTranscribe "On the mat.") "On the mat." rfl (by decide)).1
    (by decide)

/-- Claim C3: whenever the story transcription succeeds with a transcript
whose trimmed length is below 10 characters, the controller moves to
ErrorState with the too-short message and leaves qnaPairs untouched; the
result is the same for every question-generation oracle, so question
generation is never consulted. -/
theorem C3_short_transcript_errors (s : Session) (b : AudioBlob)
    (tr : AudioBlob → Except String String)
    (gen : String → Except String (List String)) (t : String)
    (htr : tr b = Except.ok t) (hshort : (jsTrim t).length < 10) :
    handleStopStoryRecording s true (some b) tr gen
      = { s with storyText := t, error := some tooShortMessage,
                 appState := AppState.ERROR } :=
  stopStory_shortTranscript s b tr gen t htr (Or.inr hshort)

theorem C3_short_transcript_errors_witness :
    constTranscribe "ok" sampleBlob = Except.ok "ok" ∧
    (jsTrim "ok").length < 10 ∧
    handleStopStoryRecording recordingStorySession true (some sampleBlob)
        (constTranscribe "ok") (constQuestions sampleQuestions)
      = { recordingStorySession with
          storyText := "ok",
          error := some tooShortMessage,
          appState := AppState.ERROR } :=
  ⟨rfl, by decide,
    C3_short_transcript_errors recordingStorySession sampleBlob
      (constTranscribe "ok") (constQuestions sampleQuestions) "ok" rfl
      (by decide)⟩


/-- Claim C4: from a reachable RecordingStory state whose transcript passes
the length check, an empty generated question list still forces ErrorState
with the no-questions message, while a non-empty list of n questions
populates qnaPairs with exactly those n entries in generation order, each
with an empty answer, and moves to PresentingQuestion with index 0. -/
theorem C4_question_generation (s : Session) (b : AudioBlob)
    (tr : AudioBlob → Except String String)
    (gen : String → Except String (List String)) (t : String)
    (hreach : Reachable s) (hstate : s.appState = AppState.RECORDING_STORY)
    (htr : tr b = Except.ok t) (hlong : ¬ (jsTrim t).length < 10) :
    (gen t = Except.ok [] →
      handleStopStoryRecording s true (some b) tr gen
        = { s with storyText := t, error := some noQuestionsMessage,
                   appState := AppState.ERROR }) ∧
    (∀ qs : List String, gen t = Except.ok qs → qs ≠ [] →
      (handleStopStoryRecording s true (some b) tr gen).qnaPairs
          = qs.map (fun q => { question := q, answer := "" }) ∧
      (handleStopStoryRecording s true (some b) tr gen).qnaPairs.length
          = qs.length ∧
      (handleStopStoryRecording s true (some b) tr gen).appState
          = AppState.PRESENTING_QUESTION ∧
      (handleStopStoryRecording s true (some b) tr gen).currentQuestionIndex
          = 0) := by
  have hn : ¬(t = "" ∨ (jsTrim t).length < 10) := by
    rintro (he | hl)
    · subst he
      exact hlong (by decide)
    · exact hlong hl
  constructor
  · intro hgen
    exact stopStory_noQuestions s b tr gen t htr hn hgen
  · intro qs hgen hqs
    obtain ⟨h1, h2, h3, h4⟩ := reachable_inv hreach
    obtain ⟨hp, hi, ht⟩ := h4 (Or.inr hstate)
    rw [stopStory_questions s b tr gen t qs htr hn hgen
      (List.length_pos.mpr hqs)]
    exact ⟨rfl, by simp, rfl, hi⟩

theorem C4_question_generation_witness :
    (handleStopStoryRecording recordingStorySession true (some sampleBlob)
        (constTranscribe sampleStory) (constQuestions sampleQuestions)).qnaPairs
      = sampleQuestions.map (fun q => { question := q, answer := "" }) ∧
    (handleStopStoryRecording recordingStorySession true (some sampleBlob)
        (constTranscribe sampleStory)
        (constQuestions sampleQuestions)).qnaPairs.length
      = sampleQuestions.length ∧
    (handleStopStoryRecording recordingStorySession true (some sampleBlob)
        (constTranscribe sampleStory) (constQuestions sampleQuestions)).appState
      = AppState.PRESENTING_QUESTION ∧
    (handleStopStoryRecording recordingStorySession true (some sampleBlob)
        (constTranscribe sampleStory)
        (constQuestions sampleQuestions)).currentQuestionIndex = 0 :=
  (C4_question_generation recordingStorySession sampleBlob
      (constTranscribe sampleStory) (constQuestions sampleQuestions)
      sampleStory reachable_recordingStory rfl rfl (by decide)).2
    sampleQuestions rfl (by decide)

/-- The reachable session produced by transcribing the two-character story
"ok": the too-short ContentError path. -/
def shortTranscriptSession : Session :=
  handleStopStoryRecording recordingStorySession true (some sampleBlob)
    (constTranscribe "ok") (constQuestions sampleQuestions)

/-- Claim C5 counterexample: on the too-short ContentError path the session
does not keep storyText empty.  Transcribing "ok" from the reachable
RecordingStory state yields a reachable ErrorState carrying the too-short
message whose storyText is "ok", because handleStopStoryRecording stores
the transcription before performing the length check. -/
theorem C5_counterexample :
    Reachable shortTranscriptSession ∧
    shortTranscriptSession.appState = AppState.ERROR ∧
    shortTranscriptSession.error = some tooShortMessage ∧
    shortTranscriptSession.storyText = "ok" ∧
    shortTranscriptSession.storyText ≠ "" := by
  refine ⟨?_, by decide, by decide, by decide, by decide⟩
  exact Reachable.step reachable_recordingStory
    (Step.stopStory recordingStorySession true (some sampleBlob)
      (constTranscribe "ok") (constQuestions sampleQuestions) rfl)

/-- Claim C5 (amended): storyText is empty in every reachable state tagged
Idle or RecordingStory, i.e. before any story transcription completes; once
the story transcription completes with transcript t, storyText equals t on
every continuation — including the too-short ContentError path, where it
holds the short transcript instead of staying empty. -/
theorem C5_storyText_amended :
    (∀ s : Session, Reachable s →
      (s.appState = AppState.IDLE ∨ s.appState = AppState.RECORDING_STORY) →
      s.storyText = "") ∧
    (∀ (s : Session) (b : AudioBlob) (tr : AudioBlob → Except String String)
        (gen : String → Except String (List String)) (t : String),
      tr b = Except.ok t →
      (handleStopStoryRecording s true (some b) tr gen).storyText = t) := by
  constructor
  · intro s hreach hstate
    obtain ⟨h1, h2, h3, h4⟩ := reachable_inv hreach
    exact (h4 hstate).2.2
  · intro s b tr gen t htr
    by_cases hshort : t = "" ∨ (jsTrim t).length < 10
    · rw [stopStory_shortTranscript s b tr gen t htr hshort]
    · cases hgen : gen t with
      | error msg => rw [stopStory_genFailed s b tr gen t msg htr hshort hgen]
      | ok qs =>
        cases qs with
        | nil => rw [stopStory_noQuestions s b tr gen t htr hshort hgen]
        | cons q qs =>
          rw [stopStory_questions s b tr gen t (q :: qs) htr hshort hgen
            (by simp)]

theorem C5_storyText_amended_witness :
    initSession.storyText = "" ∧ shortTranscriptSession.storyText = "ok" :=
  ⟨C5_storyText_amended.1 initSession Reachable.init (Or.inl rfl),
   C5_storyText_amended.2 recordingStorySession sampleBlob
     (constTranscribe "ok") (constQuestions sampleQuestions) "ok" rfl⟩

/-- Claim C6 counterexample: in the reachable RecordingAnswer state, a stop
request with the recorder active but no captured audio object leaves the
session exactly unchanged — still RecordingAnswer, not Idle — because the
`if (audioBlob)` block of handleStopAnswerRecording has no else branch. -/
theorem C6_counterexample :
    Reachable recordingAnswerSession ∧
    recordingAnswerSession.appState = AppState.RECORDING_ANSWER ∧
    handleStopAnswerRecording recordingAnswerSession true none
        (constTranscribe "On the mat.") = recordingAnswerSession ∧
    (handleStopAnswerRecording recordingAnswerSession true none
        (constTranscribe "On the mat.")).appState ≠ AppState.IDLE :=
  ⟨reachable_recordingAnswer, by decide, rfl, by decide⟩

/-- Claim C6 (amended): when stop is requested with the recorder active but
no captured audio object, the story stop handler discards the session (a
reset, landing in Idle), while the answer stop handler leaves the session
state entirely unchanged. -/
theorem C6_missing_blob_amended :
    (∀ (s : Session) (tr : AudioBlob → Except String String)
        (gen : String → Except String (List String)),
      handleStopStoryRecording s true none tr gen = handleReset s ∧
      (handleStopStoryRecording s true none tr gen).appState
        = AppState.IDLE) ∧
    (∀ (s : Session) (tr : AudioBlob → Except String String),
      handleStopAnswerRecording s true none tr = s) :=
  ⟨fun _ _ _ => ⟨rfl, rfl⟩, fun _ _ => rfl⟩

theorem updateAnswer_get?_of_ne (ps : List QnAPair) (i j : Nat) (a : String)
    (h : j ≠ i) : (updateAnswer ps i a).get? j = ps.get? j := by
  induction ps generalizing i j with
  | nil => rfl
  | cons p ps ih =>
    cases i with
    | zero =>
      cases j with
      | zero => exact absurd rfl h
      | succ j => rfl
    | succ i =>
      cases j with
      | zero => rfl
      | succ j =>
        simp only [updateAnswer, List.get?]
        exact ih i j (fun hh => h (by rw [hh]))

theorem updateAnswer_get?_question (ps : List QnAPair) (i j : Nat)
    (a : String) :
    ((updateAnswer ps i a).get? j).map QnAPair.question
      = (ps.get? j).map QnAPair.question := by
  induction ps generalizing i j with
  | nil => rfl
  | cons p ps ih =>
    cases i with
    | zero =>
      cases j with
      | zero => rfl
      | succ j => rfl
    | succ i =>
      cases j with
      | zero => rfl
      | succ j =>
        simp only [updateAnswer, List.get?]
        exact ih i j

/-- Claim C10: successfully processing an answer mutates only the answer at
the current index, the index, and the state tag: storyText, the error field,
the length of qnaPairs, every question string, and every pair stored at any
other index are unchanged. -/
theorem C10_answer_frame (s : Session) (b : AudioBlob)
    (tr : AudioBlob → Except String String) (a : String)
    (htr : tr b = Except.ok a) :
    (handleStopAnswerRecording s true (some b) tr).storyText = s.storyText ∧
    (handleStopAnswerRecording s true (some b) tr).error = s.error ∧
    (handleStopAnswerRecording s true (some b) tr).qnaPairs.length
        = s.qnaPairs.length ∧
    (∀ j : Nat,
      ((handleStopAnswerRecording s true (some b) tr).qnaPairs.get? j).map
          QnAPair.question = (s.qnaPairs.get? j).map QnAPair.question) ∧
    (∀ j : Nat, j ≠ s.currentQuestionIndex →
      (handleStopAnswerRecording s true (some b) tr).qnaPairs.get? j
        = s.qnaPairs.get? j) := by
  by_cases hadv : s.currentQuestionIndex < s.qnaPairs.length - 1
  · rw [stopAnswer_advance s b tr a htr hadv]
    exact ⟨rfl, rfl, updateAnswer_length _ _ _,
      fun j => updateAnswer_get?_question _ _ j _,
      fun j hj => updateAnswer_get?_of_ne _ _ j _ hj⟩
  · rw [stopAnswer_last s b tr a htr hadv]
    exact ⟨rfl, rfl, updateAnswer_length _ _ _,
      fun j => updateAnswer_get?_question _ _ j _,
      fun j hj => updateAnswer_get?_of_ne _ _ j _ hj⟩

theorem C10_answer_frame_witness :
    (handleStopAnswerRecording presentingSession true (some sampleBlob)
        (constTranscribe "On the mat.")).storyText
      = presentingSession.storyText ∧
    (handleStopAnswerRecording presentingSession true (some sampleBlob)
        (constTranscribe "On the mat.")).error = presentingSession.error ∧
    (handleStopAnswerRecording presentingSession true (some sampleBlob)
        (constTranscribe "On the mat.")).qnaPairs.get? 1
      = presentingSession.qnaPairs.get? 1 :=
  have h := C10_answer_frame presentingSession sampleBlob
    (constTranscribe "On the mat.") "On the mat." rfl
  ⟨h.1, h.2.1, h.2.2.2.2 1 (by decide)⟩

end ReadingBuddy
